import Mathlib

/-!
Shallow embedding of the arbitrage decision-and-execution cycle of
`src/bot.py` (class `EnhancedArbitrageBot`).

Modelling conventions:
- All monetary quantities are integers in wei (Nat, or Int where a value
  can go negative, e.g. profit).  Python integer arithmetic is exact, so
  this is faithful.
- Python float multipliers on gas prices (`int(x * 1.15)`, `int(x * 1.3)`,
  `int(base_fee * 1.5)`) are modelled as exact rational scaling with floor
  (`x * 115 / 100`, `x * 13 / 10`, `x * 3 / 2` over Nat).
- Network and chain interactions are modelled as environments: the
  responses the external world would produce are inputs, and the requests
  and notifications the bot emits are recorded in explicit event lists.
-/

namespace OmniBot

/-- Fixed trial amount, `self.AMOUNT_USDT = 95 * 10**18` (bot.py line 34). -/
def AMOUNT_USDT : Nat := 95 * 10 ^ 18

/-- Result of one receipt poll inside `_wait_for_confirmation`
(bot.py lines 179 to 195): a receipt with its status field, a
receipt-not-found outcome (covers both a None receipt and the
TransactionNotFound exception), or an RPC error. -/
inductive PollResult
  | receipt (status : Nat)
  | notFound
  | rpcError
deriving DecidableEq

/-- `_wait_for_confirmation` (bot.py lines 179 to 195): polls for a receipt
until the bounded wait is exhausted (the list of remaining poll results is
the fuel); the first receipt that appears decides the outcome as
`status == 1`; not-found and RPC errors are retried; an exhausted wait
returns false. -/
def waitForConfirmation : List PollResult → Bool
  | [] => false
  | PollResult.receipt s :: _ => s == 1
  | PollResult.notFound :: rest => waitForConfirmation rest
  | PollResult.rpcError :: rest => waitForConfirmation rest

/-- Environment of one `_execute_arbitrage` run (bot.py lines 293 to 349):
the transaction hash `_execute_swap` returns for each leg (none models the
exception path), and the receipt polls observed while waiting for each
confirmation. -/
structure ExecEnv where
  submit1 : Option Nat
  polls1 : List PollResult
  submit2 : Option Nat
  polls2 : List PollResult
deriving DecidableEq

/-- Observable events of `_execute_arbitrage`, in program order:
the gas refresh (line 295), the found-arbitrage notification ending in
Attempting execution (lines 297 to 304), each broadcast leg, and the four
distinct operator reports the code can emit (TX1 failure lines 311 to 316,
TX2 failure lines 324 to 330 carrying both hashes, success lines 336 to
343, generic execution error line 347). -/
inductive ExecEvent
  | refreshGas
  | notifyAttempt
  | broadcastLeg1 (tx1 : Nat)
  | reportLeg1Failure (tx1 : Nat)
  | broadcastLeg2 (tx2 : Nat)
  | reportLeg2Failure (tx1 tx2 : Nat)
  | reportSuccess (tx1 tx2 : Nat)
  | reportError
deriving DecidableEq

/-- `_execute_arbitrage` (bot.py lines 293 to 349) as a function from its
environment to the returned boolean and the emitted event trace.  The
control flow mirrors the source: refresh gas, notify, submit leg 1; if
leg 1 does not confirm, report TX1 failure and return; otherwise submit
leg 2; if leg 2 does not confirm, report TX2 failure with both hashes and
return; otherwise report success.  An exception from `_execute_swap` is
caught by the outer handler, which reports a generic error. -/
def executeArbitrage (env : ExecEnv) : Bool × List ExecEvent :=
  match env.submit1 with
  | none => (false, [ExecEvent.refreshGas, ExecEvent.notifyAttempt, ExecEvent.reportError])
  | some tx1 =>
    if waitForConfirmation env.polls1 then
      match env.submit2 with
      | none => (false, [ExecEvent.refreshGas, ExecEvent.notifyAttempt,
          ExecEvent.broadcastLeg1 tx1, ExecEvent.reportError])
      | some tx2 =>
        if waitForConfirmation env.polls2 then
          (true, [ExecEvent.refreshGas, ExecEvent.notifyAttempt,
            ExecEvent.broadcastLeg1 tx1, ExecEvent.broadcastLeg2 tx2,
            ExecEvent.reportSuccess tx1 tx2])
        else
          (false, [ExecEvent.refreshGas, ExecEvent.notifyAttempt,
            ExecEvent.broadcastLeg1 tx1, ExecEvent.broadcastLeg2 tx2,
            ExecEvent.reportLeg2Failure tx1 tx2])
    else
      (false, [ExecEvent.refreshGas, ExecEvent.notifyAttempt,
        ExecEvent.broadcastLeg1 tx1, ExecEvent.reportLeg1Failure tx1])

/-- Terminal outcome of one execution, abstracting which of the four
distinct operator reports `_execute_arbitrage` emits. -/
inductive Outcome
  | success
  | failedLeg1
  | failedLeg2
  | aborted
deriving DecidableEq

/-- ExecutionResult record derived from the `_execute_arbitrage` control
flow: which legs were broadcast (their hashes), which confirmed, and the
terminal outcome, read off the branch the code takes. -/
structure ExecResult where
  leg1Tx : Option Nat
  leg2Tx : Option Nat
  leg1Confirmed : Bool
  leg2Confirmed : Bool
  outcome : Outcome
deriving DecidableEq

/-- The ExecutionResult of one `_execute_arbitrage` run, following the
same branch structure as `executeArbitrage`. -/
def executionResult (env : ExecEnv) : ExecResult :=
  match env.submit1 with
  | none => ⟨none, none, false, false, Outcome.aborted⟩
  | some tx1 =>
    if waitForConfirmation env.polls1 then
      match env.submit2 with
      | none => ⟨some tx1, none, true, false, Outcome.aborted⟩
      | some tx2 =>
        if waitForConfirmation env.polls2 then
          ⟨some tx1, some tx2, true, true, Outcome.success⟩
        else
          ⟨some tx1, some tx2, true, false, Outcome.failedLeg2⟩
    else ⟨some tx1, none, false, false, Outcome.failedLeg1⟩

/-- Gas strategy, `self.gas_strategy` (bot.py line 39): medium or
aggressive. -/
inductive GasStrategy
  | medium
  | aggressive
deriving DecidableEq

/-- Hard ceiling per strategy: 10 Gwei for medium, 20 Gwei for aggressive
(bot.py lines 99 and 101). -/
def hardCeilingWei : GasStrategy → Nat
  | GasStrategy.medium => 10 * 10 ^ 9
  | GasStrategy.aggressive => 20 * 10 ^ 9

/-- Normal path of `_update_gas_parameters` (bot.py lines 97 to 101):
`min(int(current_gas * mult), int(base_fee * cap), ceiling)` with the
multiplier and cap of the strategy; a missing base fee falls back to the
plain network gas price (line 92).  Float multipliers are modelled as
exact rational scaling with floor. -/
def gasPriceNormal (strategy : GasStrategy) (networkGas : Nat)
    (baseFee : Option Nat) : Nat :=
  let bf := baseFee.getD networkGas
  match strategy with
  | GasStrategy.aggressive =>
      min (min (networkGas * 13 / 10) (bf * 2)) (20 * 10 ^ 9)
  | GasStrategy.medium =>
      min (min (networkGas * 115 / 100) (bf * 3 / 2)) (10 * 10 ^ 9)

/-- Whole of `_update_gas_parameters` (bot.py lines 82 to 106): when the
body succeeds (`ok = true`) the strategy formula applies; when it raises,
the except branch at line 106 sets the gas price to a fresh raw
`web3.eth.gas_price` read (`fallbackGas`), with no cap applied. -/
def updateGasParameters (strategy : GasStrategy) (ok : Bool)
    (networkGas : Nat) (baseFee : Option Nat) (fallbackGas : Nat) : Nat :=
  if ok then gasPriceNormal strategy networkGas baseFee else fallbackGas

/-- The gas formula as the spec words it: current equals
min(networkGasPrice x strategyMultiplier, baseFeeTerm x strategyCap,
hardCeilingWei), the base-fee term falling back to the plain network gas
price when the chain carries no base fee; multipliers 1.15 / 1.3 and caps
1.5 / 2.0 as exact rationals with floor. -/
def specGasPrice (strategy : GasStrategy) (networkGas : Nat)
    (baseFee : Option Nat) : Nat :=
  let bfTerm := match baseFee with
    | some b => b
    | none => networkGas
  let scaled := match strategy with
    | GasStrategy.medium => networkGas * 115 / 100
    | GasStrategy.aggressive => networkGas * 13 / 10
  let capped := match strategy with
    | GasStrategy.medium => bfTerm * 3 / 2
    | GasStrategy.aggressive => bfTerm * 2
  min (min scaled capped) (hardCeilingWei strategy)

/-- Resolution of a fetched BNB price against the hardcoded default,
`await self._get_bnb_price() or 300 * 10**18` (bot.py line 200): a missing
fetch, and also a fetched zero (falsy in Python), fall back to the
default. -/
def fetchedOrDefault : Option Nat → Nat
  | some v => if v = 0 then 300 * 10 ^ 18 else v
  | none => 300 * 10 ^ 18

/-- The BNB price `_calculate_net_profit` ends up using (bot.py lines 199
to 200): `if not self.bnb_price` fires when the stored price is unset or
zero, in which case a fresh fetch (or the default) replaces it. -/
def resolveBnbPrice (stored fetched : Option Nat) : Nat :=
  match stored with
  | some r => if r = 0 then fetchedOrDefault fetched else r
  | none => fetchedOrDefault fetched

/-- `_calculate_net_profit` (bot.py lines 197 to 207):
`total_gas_wei = (tx1_gas_used + tx2_gas_used) * self.gas_price`,
`gas_cost_usdt_wei = (total_gas_wei * self.bnb_price) // 10**18`,
returning `profit_wei - gas_cost_usdt_wei`.  All operands of the floor
division are nonnegative, so Python floor division coincides with Nat
division. -/
def calculateNetProfit (stored fetched : Option Nat) (profitWei : Int)
    (g1 g2 gasPrice : Nat) : Int :=
  let bnbPrice : Nat := resolveBnbPrice stored fetched
  let totalGasWei : Nat := (g1 + g2) * gasPrice
  let gasCostUsdtWei : Nat := totalGasWei * bnbPrice / 10 ^ 18
  profitWei - (gasCostUsdtWei : Int)

/-- The net-profit formula as the spec words it: net equals gross minus
floor((gas1 + gas2) x gasPriceWei x referenceRate / 1e18), in exact
integer arithmetic. -/
def specNetProfit (gross : Int) (g1 g2 gasPrice rate : Nat) : Int :=
  let gasCost : Nat := (g1 + g2) * gasPrice * rate / 10 ^ 18
  gross - (gasCost : Int)

/-- The fields of an aggregator quote the evaluator reads: `buyAmount` and
the `gas` estimate (bot.py lines 220, 229, 230). -/
structure Quote where
  buyAmount : Nat
  gas : Nat
deriving DecidableEq

/-- One HTTP exchange of `_get_quote` (bot.py lines 137 to 147): a 200
response with a parsed quote, a non-200 status code, or a transport
error (the except branch). -/
inductive HttpResult
  | ok (q : Quote)
  | status (code : Nat)
  | transportError
deriving DecidableEq

/-- `_get_quote` response handling (bot.py lines 122 to 147) run against
the stream of responses the aggregator would give to successive requests.
Returns the quote outcome and how many requests were issued.  The source
issues exactly one request and returns None on every non-200 status and
on every transport error; there is no retry loop.  The empty stream
models the no-session early return at line 123. -/
def getQuoteRun (resps : List HttpResult) : Option Quote × Nat :=
  match resps with
  | [] => (none, 0)
  | HttpResult.ok q :: _ => (some q, 1)
  | HttpResult.status _ :: _ => (none, 1)
  | HttpResult.transportError :: _ => (none, 1)

/-- Trade direction of an opportunity (bot.py lines 241 and 274). -/
inductive Direction
  | usdtBusdUsdt
  | busdUsdtBusd
deriving DecidableEq

/-- An opportunity record as built by `_check_arbitrage` (bot.py lines
240 to 247 and 273 to 280), without the float percentage, which is
reporting-only. -/
structure Opportunity where
  direction : Direction
  quote1 : Quote
  quote2 : Quote
  netProfitWei : Int
  grossProfitWei : Int
deriving DecidableEq

/-- Environment of one `_check_arbitrage` run (bot.py lines 209 to 291):
the two initial quotes fetched in parallel, the second-leg quote each
direction would receive if requested, the BUSD balance, and the gas and
BNB prices in effect. -/
structure CheckEnv where
  quote1 : Option Quote
  quote2 : Option Quote
  finalQuote1 : Option Quote
  finalQuote2 : Option Quote
  busdBalance : Nat
  gasPrice : Nat
  bnbPrice : Nat
deriving DecidableEq

/-- A quote request issued by `_check_arbitrage`: the two initial
requests (lines 211 to 212), the second-leg request of the USDT path
(line 222), and the second-leg request of the BUSD path (line 255). -/
inductive QuoteRequest
  | initialUsdtToBusd
  | initialBusdToUsdt
  | secondLegBusdToUsdt (amount : Nat)
  | secondLegUsdtToBusd (amount : Nat)
deriving DecidableEq

/-- `_check_arbitrage` (bot.py lines 209 to 291) as a function from its
environment to the selected opportunity (none when the opportunity list
is empty) and the list of quote requests issued.  The USDT path is
guarded by `if quote1 and quote2` (line 219), so it requires BOTH
initial quotes; the BUSD path is guarded by `if quote2 and
current_busd_balance >= self.AMOUNT_USDT` (line 252).  Selection is
`max(opportunities, key=net_profit_wei)`, which keeps the first maximum,
i.e. the USDT path on ties. -/
def checkArbitrage (env : CheckEnv) : Option Opportunity × List QuoteRequest :=
  let baseReqs := [QuoteRequest.initialUsdtToBusd, QuoteRequest.initialBusdToUsdt]
  let path1 : Option Opportunity × List QuoteRequest :=
    match env.quote1, env.quote2 with
    | some q1, some _ =>
      match env.finalQuote1 with
      | some fq =>
        let gross : Int := (fq.buyAmount : Int) - (AMOUNT_USDT : Int)
        let net := calculateNetProfit (some env.bnbPrice) none gross q1.gas fq.gas env.gasPrice
        (some ⟨Direction.usdtBusdUsdt, q1, fq, net, gross⟩,
         [QuoteRequest.secondLegBusdToUsdt q1.buyAmount])
      | none => (none, [QuoteRequest.secondLegBusdToUsdt q1.buyAmount])
    | _, _ => (none, [])
  let path2 : Option Opportunity × List QuoteRequest :=
    match env.quote2 with
    | some q2 =>
      if AMOUNT_USDT ≤ env.busdBalance then
        match env.finalQuote2 with
        | some fq =>
          let gross : Int := (fq.buyAmount : Int) - (AMOUNT_USDT : Int)
          let net := calculateNetProfit (some env.bnbPrice) none gross q2.gas fq.gas env.gasPrice
          (some ⟨Direction.busdUsdtBusd, q2, fq, net, gross⟩,
           [QuoteRequest.secondLegUsdtToBusd q2.buyAmount])
        | none => (none, [QuoteRequest.secondLegUsdtToBusd q2.buyAmount])
      else (none, [])
    | none => (none, [])
  let best : Option Opportunity :=
    match path1.1, path2.1 with
    | some o1, some o2 => if o2.netProfitWei ≤ o1.netProfitWei then some o1 else some o2
    | some o1, none => some o1
    | none, some o2 => some o2
    | none, none => none
  (best, baseReqs ++ path1.2 ++ path2.2)

/-- Observable events of one iteration of the `run` loop body after
`_check_arbitrage` has produced a net profit (bot.py lines 368 to 388):
the embedded execution events when `_execute_arbitrage` is called, the
low-profit notification (lines 378 to 385), the 60 second post-success
sleep (line 375), and the 5 second end-of-cycle sleep (line 388). -/
inductive CycleEvent
  | execEvent (e : ExecEvent)
  | lowProfitNotify
  | sleepSuccess
  | sleepCycle
deriving DecidableEq

/-- One iteration of the `run` loop body from the profit test on
(bot.py lines 368 to 388): if the net profit is positive and exceeds
`MIN_PROFIT`, `_execute_arbitrage` runs (its events spliced in) and a
successful execution adds the 60 second sleep; if the net profit is
positive but at most `MIN_PROFIT`, the low-profit notification is sent;
every path ends with the 5 second cycle sleep.  The threshold is a
parameter, matching the spec treating the numeric constant as
configuration. -/
def runCycle (net minProfit : Int) (env : ExecEnv) : List CycleEvent :=
  if 0 < net then
    if minProfit < net then
      let r := executeArbitrage env
      r.2.map CycleEvent.execEvent
        ++ (if r.1 then [CycleEvent.sleepSuccess] else [])
        ++ [CycleEvent.sleepCycle]
    else [CycleEvent.lowProfitNotify, CycleEvent.sleepCycle]
  else [CycleEvent.sleepCycle]

/-- C1: leg 2 is broadcast only after leg 1 confirmed successfully: any
broadcast of leg 2 in the execution trace implies the leg 1 confirmation
wait returned true, and whenever leg 1 was submitted but did not confirm
(timeout or failure-status receipt), the trace ends with the TX1 failure
report and contains no leg 2 broadcast. -/
theorem leg2_broadcast_only_after_leg1_confirmed (env : ExecEnv) :
    (∀ tx2, ExecEvent.broadcastLeg2 tx2 ∈ (executeArbitrage env).2 →
      waitForConfirmation env.polls1 = true) ∧
    (∀ tx1, env.submit1 = some tx1 → waitForConfirmation env.polls1 = false →
      (executeArbitrage env).2 = [ExecEvent.refreshGas, ExecEvent.notifyAttempt,
        ExecEvent.broadcastLeg1 tx1, ExecEvent.reportLeg1Failure tx1]) := by
  obtain ⟨s1, p1, s2, p2⟩ := env
  cases s1 with
  | none =>
    constructor
    · intro tx2 hmem
      simp [executeArbitrage] at hmem
    · intro tx1 h1
      simp at h1
  | some t1 =>
    cases hw : waitForConfirmation p1 with
    | false =>
      constructor
      · intro tx2 hmem
        simp [executeArbitrage, hw] at hmem
      · intro tx1 h1 _
        simp only at h1
        injection h1 with h1e
        subst h1e
        simp [executeArbitrage, hw]
    | true =>
      constructor
      · intro tx2 _
        rfl
      · intro tx1 _ hfalse
        exact Bool.noConfusion hfalse

/-- C1 witness: a concrete run whose leg 1 receipt has failure status
ends with the TX1 failure report and no leg 2 broadcast. -/
theorem leg2_broadcast_only_after_leg1_confirmed_wit :
    (executeArbitrage ⟨some 1, [PollResult.receipt 0], some 2, []⟩).2 =
      [ExecEvent.refreshGas, ExecEvent.notifyAttempt,
        ExecEvent.broadcastLeg1 1, ExecEvent.reportLeg1Failure 1] :=
  (leg2_broadcast_only_after_leg1_confirmed
    ⟨some 1, [PollResult.receipt 0], some 2, []⟩).2 1 rfl (by decide)

/-- C2: when leg 1 confirms successfully and leg 2 fails to confirm, the
ExecutionResult is the failedLeg2 outcome, distinct from the failedLeg1
outcome, with leg 1 recorded as confirmed and both transaction hashes in
the record; the operator report emitted is the TX2 failure message
carrying both hashes, and the TX1 failure message is never emitted. -/
theorem leg2_failure_distinct_report (env : ExecEnv) (tx1 tx2 : Nat)
    (h1 : env.submit1 = some tx1) (hc1 : waitForConfirmation env.polls1 = true)
    (h2 : env.submit2 = some tx2) (hc2 : waitForConfirmation env.polls2 = false) :
    executionResult env = ⟨some tx1, some tx2, true, false, Outcome.failedLeg2⟩ ∧
    Outcome.failedLeg2 ≠ Outcome.failedLeg1 ∧
    ExecEvent.reportLeg2Failure tx1 tx2 ∈ (executeArbitrage env).2 ∧
    (∀ a, ExecEvent.reportLeg1Failure a ∉ (executeArbitrage env).2) := by
  refine ⟨?_, by decide, ?_, ?_⟩
  · simp [executionResult, h1, h2, hc1, hc2]
  · simp [executeArbitrage, h1, h2, hc1, hc2]
  · intro a
    simp [executeArbitrage, h1, h2, hc1, hc2]

/-- C2 witness: a concrete run with leg 1 confirmed and a failure-status
receipt for leg 2 yields the failedLeg2 result with both hashes. -/
theorem leg2_failure_distinct_report_wit :
    executionResult ⟨some 3, [PollResult.receipt 1], some 4, [PollResult.receipt 0]⟩ =
      ⟨some 3, some 4, true, false, Outcome.failedLeg2⟩ :=
  (leg2_failure_distinct_report
    ⟨some 3, [PollResult.receipt 1], some 4, [PollResult.receipt 0]⟩
    3 4 rfl rfl rfl rfl).1

/-- C3: for all integer gas estimates, gas price, gross profit and
nonzero stored reference rate, the net profit computed by
calculateNetProfit equals gross minus floor((g1 + g2) x gasPrice x rate
/ 1e18) in exact integer arithmetic; determinism over the fixed inputs
is inherent, calculateNetProfit being a pure function of them. -/
theorem net_profit_matches_spec_formula (gross : Int) (g1 g2 gasPrice rate : Nat)
    (hr : rate ≠ 0) :
    calculateNetProfit (some rate) none gross g1 g2 gasPrice =
      specNetProfit gross g1 g2 gasPrice rate := by
  simp [calculateNetProfit, specNetProfit, resolveBnbPrice, hr]

/-- C3 witness: the formula at the spec scenario numbers, gas estimates
150000 and 160000 at 5 Gwei and a 300 USDT per BNB reference rate. -/
theorem net_profit_matches_spec_formula_wit :
    calculateNetProfit (some (300 * 10 ^ 18)) none (5 * 10 ^ 17) 150000 160000 (5 * 10 ^ 9) =
      specNetProfit (5 * 10 ^ 17) 150000 160000 (5 * 10 ^ 9) (300 * 10 ^ 18) :=
  net_profit_matches_spec_formula (5 * 10 ^ 17) 150000 160000 (5 * 10 ^ 9)
    (300 * 10 ^ 18) (by decide)

/-- C4 counterexample: on the error-fallback path of the gas refresh
(bot.py line 106) the gas price is set to the raw network gas price with
no cap; with the medium strategy and a 50 Gwei network price the result
is 50 Gwei, above the 10 Gwei hard ceiling, refuting the claim that the
bound holds on the error-fallback path. -/
theorem gas_refresh_fallback_exceeds_ceiling :
    updateGasParameters GasStrategy.medium false (5 * 10 ^ 9) none (50 * 10 ^ 9)
      = 50 * 10 ^ 9 ∧
    ¬ updateGasParameters GasStrategy.medium false (5 * 10 ^ 9) none (50 * 10 ^ 9)
      ≤ hardCeilingWei GasStrategy.medium := by
  decide

/-- C4 amended: after every successful (non-error) gas refresh, for both
strategies and all network inputs, the current gas price lies between 0
and the hard ceiling of the strategy (10 Gwei medium, 20 Gwei
aggressive); the error-fallback path instead takes the raw network gas
price and is not bounded by the ceiling. -/
theorem gas_refresh_bounded_on_success (strategy : GasStrategy)
    (networkGas fallbackGas : Nat) (baseFee : Option Nat) :
    0 ≤ updateGasParameters strategy true networkGas baseFee fallbackGas ∧
    updateGasParameters strategy true networkGas baseFee fallbackGas
      ≤ hardCeilingWei strategy := by
  refine ⟨Nat.zero_le _, ?_⟩
  cases strategy <;> simp [updateGasParameters, gasPriceNormal, hardCeilingWei]

/-- C8: the successful gas refresh computes exactly the spec formula
min(networkGasPrice x strategyMultiplier, baseFeeTerm x strategyCap,
hardCeilingWei), with multiplier 1.15 and cap 1.5 for medium and 1.3 and
2.0 for aggressive, and with the plain network gas price substituted for
the base-fee term when the block carries no base fee. -/
theorem gas_refresh_matches_spec_formula (strategy : GasStrategy)
    (networkGas fallbackGas : Nat) (baseFee : Option Nat) :
    updateGasParameters strategy true networkGas baseFee fallbackGas =
      specGasPrice strategy networkGas baseFee := by
  cases strategy <;> cases baseFee <;> rfl

/-- Concrete evaluation environment in which the USDT to BUSD initial
quote succeeded, the BUSD to USDT initial quote failed, the second-leg
quote of the USDT path would be available and profitable, and the
balance is ample. -/
def lopsidedEnv : CheckEnv :=
  ⟨some ⟨96 * 10 ^ 18, 150000⟩, none, some ⟨96 * 10 ^ 18, 160000⟩, none,
    1000 * 10 ^ 18, 5 * 10 ^ 9, 300 * 10 ^ 18⟩

/-- C5 counterexample: in lopsidedEnv the failed BUSD to USDT initial
quote excludes the USDT to BUSD to USDT direction as well, because the
guard at bot.py line 219 requires BOTH initial quotes: the evaluator
issues no second-leg request and returns no opportunity, even though the
direction had its own initial quote and a second-leg quote that would
have produced a strictly positive net profit.  This refutes the claim
that a failed initial quote for one direction never excludes the other
direction from evaluation. -/
theorem failed_quote2_excludes_direction1 :
    (checkArbitrage lopsidedEnv).1 = none ∧
    (checkArbitrage lopsidedEnv).2 =
      [QuoteRequest.initialUsdtToBusd, QuoteRequest.initialBusdToUsdt] ∧
    lopsidedEnv.quote1 = some ⟨96 * 10 ^ 18, 150000⟩ ∧
    lopsidedEnv.finalQuote1 = some ⟨96 * 10 ^ 18, 160000⟩ ∧
    0 < calculateNetProfit (some lopsidedEnv.bnbPrice) none
      ((96 * 10 ^ 18 : Int) - (AMOUNT_USDT : Int)) 150000 160000 lopsidedEnv.gasPrice := by
  refine ⟨rfl, rfl, rfl, rfl, by decide⟩

/-- C5 amended: the independence holds in the direction the scenario
states: when the A to B to A initial quote is unavailable but the B to A
to B direction obtains its initial quote, passes the balance check, and
gets a second-leg quote yielding positive net profit, the evaluator
returns the B to A to B opportunity rather than none.  The converse
direction fails: a missing B to A to B initial quote also excludes A to
B to A (bot.py line 219 requires both initial quotes). -/
theorem direction2_evaluated_when_quote1_missing (env : CheckEnv) (q2 fq : Quote)
    (hq1 : env.quote1 = none) (hq2 : env.quote2 = some q2)
    (hbal : AMOUNT_USDT ≤ env.busdBalance) (hfq : env.finalQuote2 = some fq)
    (hnet : 0 < calculateNetProfit (some env.bnbPrice) none
      ((fq.buyAmount : Int) - (AMOUNT_USDT : Int)) q2.gas fq.gas env.gasPrice) :
    ∃ o, (checkArbitrage env).1 = some o ∧
      o.direction = Direction.busdUsdtBusd ∧ 0 < o.netProfitWei := by
  refine ⟨⟨Direction.busdUsdtBusd, q2, fq,
    calculateNetProfit (some env.bnbPrice) none
      ((fq.buyAmount : Int) - (AMOUNT_USDT : Int)) q2.gas fq.gas env.gasPrice,
    (fq.buyAmount : Int) - (AMOUNT_USDT : Int)⟩, ?_, rfl, hnet⟩
  simp [checkArbitrage, hq1, hq2, hbal, hfq]

/-- C5 amended witness: a concrete environment with the A to B to A
initial quote missing and a fully successful profitable B to A to B
evaluation yields the B to A to B opportunity. -/
theorem direction2_evaluated_when_quote1_missing_wit :
    ∃ o, (checkArbitrage ⟨none, some ⟨96 * 10 ^ 18, 150000⟩, none,
        some ⟨96 * 10 ^ 18, 160000⟩, 1000 * 10 ^ 18, 5 * 10 ^ 9, 300 * 10 ^ 18⟩).1
      = some o ∧ o.direction = Direction.busdUsdtBusd ∧ 0 < o.netProfitWei :=
  direction2_evaluated_when_quote1_missing
    ⟨none, some ⟨96 * 10 ^ 18, 150000⟩, none, some ⟨96 * 10 ^ 18, 160000⟩,
      1000 * 10 ^ 18, 5 * 10 ^ 9, 300 * 10 ^ 18⟩
    ⟨96 * 10 ^ 18, 150000⟩ ⟨96 * 10 ^ 18, 160000⟩
    rfl rfl (by decide) rfl (by decide)

/-- C6: whenever the BUSD balance is below the fixed trial amount, the
evaluator never issues the second-leg quote request of the B to A to B
direction, for any requested amount. -/
theorem low_balance_skips_busd_second_leg (env : CheckEnv)
    (hbal : env.busdBalance < AMOUNT_USDT) :
    ∀ a, QuoteRequest.secondLegUsdtToBusd a ∉ (checkArbitrage env).2 := by
  intro a
  have hb : ¬ AMOUNT_USDT ≤ env.busdBalance := Nat.not_le.mpr hbal
  obtain ⟨q1, q2, f1, f2, bal, gp, bp⟩ := env
  cases q1 <;> cases q2 <;> cases f1 <;> simp [checkArbitrage, hb]

/-- C6 witness: with a zero BUSD balance the second-leg B to A to B
request is absent from the issued requests. -/
theorem low_balance_skips_busd_second_leg_wit :
    QuoteRequest.secondLegUsdtToBusd 0 ∉
      (checkArbitrage ⟨some ⟨1, 1⟩, some ⟨1, 1⟩, some ⟨1, 1⟩, some ⟨1, 1⟩, 0, 1, 1⟩).2 :=
  low_balance_skips_busd_second_leg
    ⟨some ⟨1, 1⟩, some ⟨1, 1⟩, some ⟨1, 1⟩, some ⟨1, 1⟩, 0, 1, 1⟩ (by decide) 0

/-- C7: in a scheduler cycle with a nonnegative configured threshold, an
execution attempt occurs if and only if the net profit strictly exceeds
the threshold; and when the net profit is positive but at most the
threshold, the cycle consists exactly of the low-profit notification
followed by the short cycle sleep, so nothing is submitted. -/
theorem execution_iff_above_min_profit (net minProfit : Int) (env : ExecEnv)
    (hmin : 0 ≤ minProfit) :
    ((∃ e, CycleEvent.execEvent e ∈ runCycle net minProfit env) ↔ minProfit < net) ∧
    (0 < net → net ≤ minProfit →
      runCycle net minProfit env = [CycleEvent.lowProfitNotify, CycleEvent.sleepCycle]) := by
  have hexecmem : ExecEvent.refreshGas ∈ (executeArbitrage env).2 := by
    obtain ⟨s1, p1, s2, p2⟩ := env
    cases s1 with
    | none => simp [executeArbitrage]
    | some t1 =>
      cases hw1 : waitForConfirmation p1 with
      | false => simp [executeArbitrage, hw1]
      | true =>
        cases s2 with
        | none => simp [executeArbitrage, hw1]
        | some t2 =>
          cases hw2 : waitForConfirmation p2 with
          | false => simp [executeArbitrage, hw1, hw2]
          | true => simp [executeArbitrage, hw1, hw2]
  constructor
  · constructor
    · rintro ⟨e, he⟩
      by_contra hnm
      have hnm2 : ¬ minProfit < net := hnm
      by_cases h0 : 0 < net
      · simp [runCycle, h0, hnm2] at he
      · simp [runCycle, h0] at he
    · intro hm
      have h0 : 0 < net := lt_of_le_of_lt hmin hm
      refine ⟨ExecEvent.refreshGas, ?_⟩
      simp only [runCycle, if_pos h0, if_pos hm, List.mem_append, List.mem_map]
      exact Or.inl (Or.inl ⟨ExecEvent.refreshGas, hexecmem, rfl⟩)
  · intro h0 hle
    have hm : ¬ minProfit < net := Int.not_lt.mpr hle
    simp [runCycle, h0, hm]

/-- C7 witness: net profit 1 wei against a threshold of 3 wei produces
exactly the low-profit notification and the short sleep. -/
theorem execution_iff_above_min_profit_wit :
    runCycle 1 3 ⟨none, [], none, []⟩ =
      [CycleEvent.lowProfitNotify, CycleEvent.sleepCycle] :=
  (execution_iff_above_min_profit 1 3 ⟨none, [], none, []⟩ (by decide)).2
    (by decide) (by decide)

/-- C9 counterexample: a first response of HTTP 429 followed by an
available successful response still yields Unavailable after exactly one
request: `_get_quote` has no retry loop at all, refuting the claim that
it retries up to 3 times on 429. -/
theorem rate_limited_quote_not_retried :
    getQuoteRun [HttpResult.status 429, HttpResult.ok ⟨1, 1⟩] = (none, 1) := rfl

/-- C9 amended: `_get_quote` issues at most one aggregator request per
call; every non-200 response, HTTP 429 included, and every transport
error yields Unavailable immediately with no retry, and a 200 response
yields its quote. -/
theorem quote_unavailable_immediately_on_non_200 (resps : List HttpResult) :
    (getQuoteRun resps).2 ≤ 1 ∧
    (∀ c rest, resps = HttpResult.status c :: rest → (getQuoteRun resps).1 = none) ∧
    (∀ rest, resps = HttpResult.transportError :: rest → (getQuoteRun resps).1 = none) ∧
    (∀ q rest, resps = HttpResult.ok q :: rest → (getQuoteRun resps).1 = some q) := by
  refine ⟨?_, ?_, ?_, ?_⟩
  · cases resps with
    | nil => simp [getQuoteRun]
    | cons r rest => cases r <;> simp [getQuoteRun]
  · intro c rest h
    subst h
    rfl
  · intro rest h
    subst h
    rfl
  · intro q rest h
    subst h
    rfl

/-- C9 amended witness: a single 429 response yields Unavailable. -/
theorem quote_unavailable_immediately_on_non_200_wit :
    (getQuoteRun [HttpResult.status 429]).1 = none :=
  (quote_unavailable_immediately_on_non_200 [HttpResult.status 429]).2.1 429 [] rfl

/-- C10: the found-arbitrage notification ending in Attempting execution
is sent only after the minimum-profit check has passed: when the net
profit is at most the threshold, or non-positive, the notification never
appears in the cycle trace. -/
theorem attempt_notification_requires_min_profit (net minProfit : Int)
    (env : ExecEnv) (h : net ≤ minProfit ∨ net ≤ 0) :
    CycleEvent.execEvent ExecEvent.notifyAttempt ∉ runCycle net minProfit env := by
  intro hmem
  rcases h with h | h
  · by_cases h0 : 0 < net
    · rw [runCycle, if_pos h0, if_neg (Int.not_lt.mpr h)] at hmem
      simp at hmem
    · rw [runCycle, if_neg h0] at hmem
      simp at hmem
  · rw [runCycle, if_neg (Int.not_lt.mpr h)] at hmem
    simp at hmem

/-- C10 witness: a positive net profit of 1 wei below a threshold of 3
wei never triggers the execution-attempt notification. -/
theorem attempt_notification_requires_min_profit_wit :
    CycleEvent.execEvent ExecEvent.notifyAttempt ∉
      runCycle 1 3 ⟨some 1, [], some 2, []⟩ :=
  attempt_notification_requires_min_profit 1 3 ⟨some 1, [], some 2, []⟩
    (Or.inl (by decide))

end OmniBot
